import Mathlib

/-!
Shallow embedding of the alerting and aggregation core of the solar
monitoring repository (`solar-nextjs/lib/monitoring-service.ts` and the
daily-statistics part of `solar-nextjs/app/page.tsx`).

Conventions of the embedding:
* JS `Date.getTime()` millisecond timestamps are modelled as `Int`; every
  `new Date()` taken during one check pass is modelled by the single `now`
  argument of that pass.
* Nullable fields (`Date | null`, `string | null`) are `Option`.
* JS numbers that carry telemetry values (voltages, powers) are modelled
  as `ℚ`; the string-to-number parsing (`parseFloat`) performed at the
  fetch boundary is outside the model, so row fields carry the already
  parsed rational value.
* Each `checkX` method of `MonitoringService` becomes a pure function from
  its inputs and the mutable `MonitoringState` to the new state together
  with a `Bool` saying whether that check dispatched its alert (the three
  notification channels are fanned out together in the source, so one
  boolean per check captures "an alert was sent").
-/

namespace Solar

/-- Mirror of the `MonitoringState` interface of `monitoring-service.ts`
(lines 7-20): one record of all mutable monitor state. -/
structure MonitoringState where
  lastGridFeedCheck : Option Int
  lastLoadSheddingAlertTime : Option Int
  lastResetAlertTime : Option Int
  lastDailySummaryDate : Option String
  lastDataTimestamp : Int
  lastSystemOfflineAlertTime : Option Int
  isLoadShedding : Bool
  systemResetDetected : Bool
  systemOnline : Bool
  lastKnownOutputPriority : Option String
  gridFeedingEnabled : Bool
  previousGridFeedStatus : Bool
  deriving Repr, DecidableEq

/-- Mirror of the `config` object built in the constructor (lines 47-52). -/
structure Config where
  gridFeedAlertIntervalHours : Int
  loadSheddingVoltageThreshold : ℚ
  systemOfflineThresholdMinutes : Int
  lowProductionThresholdWatts : ℚ
  deriving Repr

/-- The environment-variable defaults of the constructor:
interval 1 h, voltage threshold 180 V, offline threshold 10 min, low
production threshold 500 W. -/
def defaultConfig : Config :=
  { gridFeedAlertIntervalHours := 1
    loadSheddingVoltageThreshold := 180
    systemOfflineThresholdMinutes := 10
    lowProductionThresholdWatts := 500 }

/-- The state built by the `MonitoringService` constructor (lines 31-45);
`lastDataTimestamp` is `new Date()` at construction time, passed in as
`now`. -/
def initialState (now : Int) : MonitoringState :=
  { lastGridFeedCheck := none
    lastLoadSheddingAlertTime := none
    lastResetAlertTime := none
    lastDailySummaryDate := none
    lastDataTimestamp := now
    lastSystemOfflineAlertTime := none
    isLoadShedding := false
    systemResetDetected := false
    systemOnline := true
    lastKnownOutputPriority := none
    gridFeedingEnabled := true
    previousGridFeedStatus := true }

/-- The idiom `!this.state.lastXAlertTime || now - lastX.getTime() >= c`
shared by the reset, load-shedding and grid-feed checks: true when no
last-alert timestamp is recorded or the cadence `c` has elapsed. -/
def reminderDue (now : Int) (last : Option Int) (cadence : Int) : Bool :=
  match last with
  | none => true
  | some t => decide (now - t ≥ cadence)

/-- `EXPECTED_OUTPUT_PRIORITY` of `checkSystemReset` (line 155). -/
def EXPECTED_OUTPUT_PRIORITY : String := "Solar Utility Bat"

/-- `MonitoringService.checkSystemReset` (lines 153-193). Returns the new
state and whether the reset alert was dispatched. -/
def checkSystemReset (now : Int) (outputPriority : String)
    (s : MonitoringState) : MonitoringState × Bool :=
  if outputPriority = "Unknown" then (s, false)
  else if outputPriority ≠ EXPECTED_OUTPUT_PRIORITY then
    -- isReset = true
    let shouldSendAlert : Bool :=
      !s.systemResetDetected ||
        reminderDue now s.lastResetAlertTime (60 * 60 * 1000)
    if shouldSendAlert then
      ({ s with systemResetDetected := true
                lastResetAlertTime := some now
                lastKnownOutputPriority := some outputPriority }, true)
    else
      ({ s with lastKnownOutputPriority := some outputPriority }, false)
  else
    ({ s with systemResetDetected := false
              lastResetAlertTime := none
              lastKnownOutputPriority := some outputPriority }, false)

/-- The load-shedding condition `gridVoltage > 0 && gridVoltage <
threshold` (line 201). -/
def isVoltageBelow (cfg : Config) (gridVoltage : ℚ) : Bool :=
  decide (gridVoltage > 0) && decide (gridVoltage < cfg.loadSheddingVoltageThreshold)

/-- `MonitoringService.checkLoadShedding` (lines 198-235). -/
def checkLoadShedding (cfg : Config) (now : Int) (gridVoltage : ℚ)
    (s : MonitoringState) : MonitoringState × Bool :=
  if isVoltageBelow cfg gridVoltage then
    let shouldSendAlert : Bool :=
      !s.isLoadShedding ||
        reminderDue now s.lastLoadSheddingAlertTime (5 * 60 * 60 * 1000)
    if shouldSendAlert then
      ({ s with isLoadShedding := true
                lastLoadSheddingAlertTime := some now }, true)
    else (s, false)
  else if gridVoltage > cfg.loadSheddingVoltageThreshold then
    ({ s with isLoadShedding := false
              lastLoadSheddingAlertTime := none }, false)
  else (s, false)

/-- `MonitoringService.checkGridFeed` (lines 240-298). The persisted
`grid_feeding_enabled` flag (`settingsStorage`) is modelled as
`Option Bool` (`none` = key never written); the check only writes it
(line 294 persists the incoming status unconditionally), so the result is
the new state, the new store value, and whether an alert was sent. -/
def checkGridFeed (cfg : Config) (now : Int) (gridFeedEnabled : Bool)
    (s : MonitoringState) :
    MonitoringState × Option Bool × Bool :=
  let wentFromOnToOff := s.previousGridFeedStatus && !gridFeedEnabled
  let stepped :=
    if wentFromOnToOff then
      ({ s with lastGridFeedCheck := some now }, true)
    else if !gridFeedEnabled then
      let shouldSendReminder : Bool :=
        reminderDue now s.lastGridFeedCheck
          (cfg.gridFeedAlertIntervalHours * 60 * 60 * 1000)
      if shouldSendReminder then
        ({ s with lastGridFeedCheck := some now }, true)
      else (s, false)
    else
      ({ s with lastGridFeedCheck := none }, false)
  -- lines 289-291: previousGridFeedStatus is refreshed from the field
  -- `gridFeedingEnabled` as it was BEFORE this check, then the field is
  -- set to the incoming status; line 294 persists the incoming status.
  ({ stepped.1 with previousGridFeedStatus := stepped.1.gridFeedingEnabled
                    gridFeedingEnabled := gridFeedEnabled },
   some gridFeedEnabled, stepped.2)

/-- `MonitoringService.checkSystemOffline` (lines 120-148). -/
def checkSystemOffline (cfg : Config) (now : Int)
    (s : MonitoringState) : MonitoringState × Bool :=
  let timeSinceLastData := now - s.lastDataTimestamp
  let thresholdMs := cfg.systemOfflineThresholdMinutes * 60 * 1000
  if timeSinceLastData > thresholdMs ∧ s.systemOnline = true then
    ({ s with systemOnline := false
              lastSystemOfflineAlertTime := some now }, true)
  else (s, false)

/-- `MonitoringService.updateDataTimestamp` (lines 76-83): called on every
successful data fetch. -/
def updateDataTimestamp (now : Int) (s : MonitoringState) : MonitoringState :=
  let s1 := { s with lastDataTimestamp := now }
  if s1.systemOnline = false then
    { s1 with systemOnline := true, lastSystemOfflineAlertTime := none }
  else s1

/-- The values `getDeviceLastData` resolves for `getGridFeedStatus`, after
`parseFloat` with default `'0'` (lines 451-454); `none` at the call site
models both an empty `dat` array and a thrown fetch error, which fall back
to the persisted flag. -/
structure DeviceData where
  solarFeedPower : ℚ
  pv1Power : ℚ
  pv2Power : ℚ
  deriving Repr

/-- `MonitoringService.getGridFeedStatus` (lines 433-482). `currentHour`
is `new Date().getHours()`; `store` is the persisted
`grid_feeding_enabled` flag (`none` = never written, so `get` returns its
default `true`). -/
def getGridFeedStatus (dd : Option DeviceData) (currentHour : Nat)
    (store : Option Bool) : Bool :=
  match dd with
  | none => store.getD true
  | some d =>
    let pvPower := d.pv1Power + d.pv2Power
    let isDaytime := decide (7 ≤ currentHour) && decide (currentHour ≤ 17)
    let isProducing := decide (pvPower > 500)
    let isFeeding := decide (d.solarFeedPower ≥ 50)
    if isDaytime && isProducing then
      isFeeding
    else
      let savedGridStatus := store.getD true
      if isFeeding then true
      else if savedGridStatus = false then false
      else true

/-- The result of `MonitoringService.getCurrentSystemData` (lines 88-115):
`success = false` covers both an empty row set and a thrown fetch error,
in which case priority is "Unknown" and voltage 0. -/
structure SystemData where
  outputPriority : String
  gridVoltage : ℚ
  success : Bool
  deriving Repr

/-- Which of the four alert kinds a `runAllChecks` pass dispatched. -/
structure Alerts where
  reset : Bool
  loadShedding : Bool
  gridFeed : Bool
  offline : Bool
  deriving Repr, DecidableEq

/-- State of the service after one `runAllChecks` pass: monitor state, the
persisted flag store, and the alerts sent. -/
structure CheckOutcome where
  state : MonitoringState
  store : Option Bool
  alerts : Alerts

/-- `MonitoringService.runAllChecks` (lines 398-428): one full monitoring
pass.  On a successful fetch `getCurrentSystemData` has already called
`updateDataTimestamp` (line 100); then reset is checked when the priority
resolved (line 407), load shedding when the voltage is positive (line
412), and the grid-feed status is resolved from the device data and
checked; the offline check always runs last. -/
def runAllChecks (cfg : Config) (now : Int) (currentHour : Nat)
    (sd : SystemData) (dd : Option DeviceData)
    (s : MonitoringState) (store : Option Bool) : CheckOutcome :=
  if sd.success then
    let s0 := updateDataTimestamp now s
    let r1 := if sd.outputPriority ≠ "Unknown"
              then checkSystemReset now sd.outputPriority s0
              else (s0, false)
    let r2 := if sd.gridVoltage > 0
              then checkLoadShedding cfg now sd.gridVoltage r1.1
              else (r1.1, false)
    let gridFeedEnabled := getGridFeedStatus dd currentHour store
    let r3 := checkGridFeed cfg now gridFeedEnabled r2.1
    let r4 := checkSystemOffline cfg now r3.1
    { state := r4.1
      store := r3.2.1
      alerts := { reset := r1.2, loadShedding := r2.2,
                  gridFeed := r3.2.2, offline := r4.2 } }
  else
    let r4 := checkSystemOffline cfg now s
    { state := r4.1
      store := store
      alerts := { reset := false, loadShedding := false,
                  gridFeed := false, offline := r4.2 } }

/-- Fold of `checkSystemReset` over a trace of `(time, priority)` checks;
the second component lists, check by check, whether the reset alert was
sent. -/
def runResetChecks (s : MonitoringState) :
    List (Int × String) → MonitoringState × List Bool
  | [] => (s, [])
  | (t, p) :: rest =>
    let r := checkSystemReset t p s
    let rr := runResetChecks r.1 rest
    (rr.1, r.2 :: rr.2)

/-- Fold of the load-shedding check over a trace of `(time, voltage)`
checks, with the `runAllChecks` guard `gridVoltage > 0` of line 412 in
front of each call. -/
def runVoltageChecks (cfg : Config) (s : MonitoringState) :
    List (Int × ℚ) → MonitoringState × List Bool
  | [] => (s, [])
  | (t, v) :: rest =>
    let r := if v > 0 then checkLoadShedding cfg t v s else (s, false)
    let rr := runVoltageChecks cfg r.1 rest
    (rr.1, r.2 :: rr.2)

/-- Consecutive elements of the time list are at least `c` apart. -/
def gapsAtLeast (c : Int) : List Int → Prop
  | [] => True
  | [_] => True
  | a :: b :: rest => b - a ≥ c ∧ gapsAtLeast c (b :: rest)

/-! ## Daily statistics aggregator -/

/-- JS `Math.round`: nearest integer, halves toward positive infinity. -/
def jsRound (q : ℚ) : Int := ⌊q + 1/2⌋

/-- `Math.round(x * 100) / 100`, the two-decimal display rounding of
`getDailyStats` (lines 343-345). -/
def round2 (q : ℚ) : ℚ := (jsRound (q * 100) : ℚ) / 100

/-- JS `String.prototype.startsWith`: character-prefix test. -/
def jsStartsWith (s p : String) : Bool := p.data.isPrefixOf s.data

/-- One row of the daily data series as `getDailyStats` consumes it:
`fieldCount` is `rec.field.length`; `timestamp` is `fields[1]` (the empty
string standing for a missing/falsy field); `pvPower` and `loadPower` are
the values of `fields[11] ? parseFloat(fields[11]) : 0.0` and the same
for `fields[21]`; `mode` is `fields.length > 47 && fields[47] ?
String(fields[47]) : ''`. -/
structure Row where
  fieldCount : Nat
  timestamp : String
  pvPower : ℚ
  loadPower : ℚ
  mode : String
  deriving Repr, DecidableEq

/-- The retention condition a row must pass, both in the accumulation loop
(lines 317-320) and in the `actualDataPoints` filter (lines 337-339):
at least 22 fields, a truthy timestamp, and the timestamp on the
requested date. -/
def retained (dateStr : String) (r : Row) : Bool :=
  decide (22 ≤ r.fieldCount) && !(decide (r.timestamp = "")) &&
    jsStartsWith r.timestamp dateStr

/-- The rows of the series that survive the retention filter. -/
def retainedRows (dateStr : String) (rows : List Row) : List Row :=
  rows.filter (retained dateStr)

/-- `intervalHours = 5 / 60` (line 313). -/
def intervalHours : ℚ := 5 / 60

/-- Production accumulator `totalProductionWh` (line 326). -/
def totalProductionWh (dateStr : String) (rows : List Row) : ℚ :=
  ((retainedRows dateStr rows).map (fun r => r.pvPower * intervalHours)).sum

/-- Consumption accumulator `totalLoadWh` (line 327). -/
def totalLoadWh (dateStr : String) (rows : List Row) : ℚ :=
  ((retainedRows dateStr rows).map (fun r => r.loadPower * intervalHours)).sum

/-- Battery-mode duration accumulator (lines 329-330). -/
def batteryModeHours (dateStr : String) (rows : List Row) : ℚ :=
  intervalHours * ((retainedRows dateStr rows).filter
    (fun r => r.mode = "Battery Mode")).length

/-- Standby-mode duration accumulator (lines 331-332). -/
def standbyModeHours (dateStr : String) (rows : List Row) : ℚ :=
  intervalHours * ((retainedRows dateStr rows).filter
    (fun r => r.mode = "Standby Mode")).length

/-- `expectedDataPoints = 288` (line 336), used unconditionally by
`getDailyStats` whatever the requested date. -/
def expectedDataPoints : Int := 288

/-- `actualDataPoints` (lines 337-339). -/
def actualDataPoints (dateStr : String) (rows : List Row) : Nat :=
  (retainedRows dateStr rows).length

/-- `missingDataPoints = Math.max(0, expectedDataPoints -
actualDataPoints)` (line 340). -/
def missingDataPoints (dateStr : String) (rows : List Row) : Int :=
  max 0 (expectedDataPoints - (actualDataPoints dateStr rows : Int))

/-- The `formatHours` helper of `getDailyStats` (lines 347-351). -/
def formatHours (decimalHours : ℚ) : String :=
  let hrs : Int := ⌊decimalHours⌋
  let mins : Int := jsRound ((decimalHours - hrs) * 60)
  toString hrs ++ " hr " ++ toString mins ++ " min"

/-- The summary record `getDailyStats` returns (lines 355-365); the
`timestamp` field (current wall-clock formatting) is out of the model. -/
structure DailySummaryData where
  date : String
  production_kwh : ℚ
  load_kwh : ℚ
  grid_contribution_kwh : ℚ
  load_shedding_hours : String
  standby_hours : String
  missing_data_hours : String
  system_off_hours : String
  deriving Repr, DecidableEq

/-- `MonitoringService.getDailyStats` (lines 303-370) on an already
fetched row series. -/
def getDailyStats (dateStr : String) (rows : List Row) : DailySummaryData :=
  let missingDataHours : ℚ := (missingDataPoints dateStr rows : ℚ) * 5 / 60
  { date := dateStr
    production_kwh := round2 (totalProductionWh dateStr rows / 1000)
    load_kwh := round2 (totalLoadWh dateStr rows / 1000)
    grid_contribution_kwh :=
      round2 ((totalProductionWh dateStr rows - totalLoadWh dateStr rows) / 1000)
    load_shedding_hours := formatHours (batteryModeHours dateStr rows)
    standby_hours := formatHours (standbyModeHours dateStr rows)
    missing_data_hours := formatHours missingDataHours
    system_off_hours :=
      formatHours (standbyModeHours dateStr rows + missingDataHours) }

/-- The expected-sample computation of the frontend aggregator
(`app/page.tsx`, `fetchData`, lines 150-165): for the current day
`Math.floor(minutesSinceMidnight / DATA_INTERVAL_MINUTES)` with
`minutesSinceMidnight = getHours() * 60 + getMinutes()`, otherwise the
constant `EXPECTED_DATA_POINTS_PER_DAY = 288`. -/
def fetchDataExpectedDataPoints (dateStr todayStr : String)
    (nowHours nowMinutes : Nat) : Nat :=
  if dateStr = todayStr then (nowHours * 60 + nowMinutes) / 5
  else 288

/-! ## Behaviour of the reset monitor on single checks -/

theorem checkSystemReset_unknown (now : Int) (s : MonitoringState) :
    checkSystemReset now "Unknown" s = (s, false) := by
  simp [checkSystemReset]

theorem checkSystemReset_expected (now : Int) (s : MonitoringState) :
    checkSystemReset now EXPECTED_OUTPUT_PRIORITY s =
      ({ s with systemResetDetected := false
                lastResetAlertTime := none
                lastKnownOutputPriority := some EXPECTED_OUTPUT_PRIORITY },
       false) := by
  simp [checkSystemReset, EXPECTED_OUTPUT_PRIORITY]

theorem checkSystemReset_deviant_fresh (now : Int) (p : String)
    (s : MonitoringState) (h1 : p ≠ "Unknown")
    (h2 : p ≠ EXPECTED_OUTPUT_PRIORITY)
    (h3 : s.systemResetDetected = false) :
    checkSystemReset now p s =
      ({ s with systemResetDetected := true
                lastResetAlertTime := some now
                lastKnownOutputPriority := some p }, true) := by
  simp [checkSystemReset, h1, h2, h3]

theorem checkSystemReset_deviant_hold (now ta : Int) (p : String)
    (s : MonitoringState) (h1 : p ≠ "Unknown")
    (h2 : p ≠ EXPECTED_OUTPUT_PRIORITY)
    (h3 : s.systemResetDetected = true)
    (h4 : s.lastResetAlertTime = some ta)
    (h5 : now - ta < 60 * 60 * 1000) :
    checkSystemReset now p s =
      ({ s with lastKnownOutputPriority := some p }, false) := by
  have h6 : ¬(now - ta ≥ 60 * 60 * 1000) := by omega
  simp [checkSystemReset, reminderDue, h1, h2, h3, h4, h6]
  omega

theorem checkSystemReset_deviant_due (now ta : Int) (p : String)
    (s : MonitoringState) (h1 : p ≠ "Unknown")
    (h2 : p ≠ EXPECTED_OUTPUT_PRIORITY)
    (h3 : s.lastResetAlertTime = some ta)
    (h5 : now - ta ≥ 60 * 60 * 1000) :
    checkSystemReset now p s =
      ({ s with systemResetDetected := true
                lastResetAlertTime := some now
                lastKnownOutputPriority := some p }, true) := by
  simp [checkSystemReset, reminderDue, h1, h2, h3, h5]
  intro
  omega

/-- Claim C8: the reset monitor treats the sentinel "Unknown" as a no-op
and, after any check that saw the expected priority, a run of three
checks with the deviant priority "Utility Solar Bat" spaced 10 minutes
apart sends exactly one alert, on the first deviating check. -/
theorem C8_reset_unknown_noop_and_single_alert :
    (∀ (now : Int) (s : MonitoringState),
      checkSystemReset now "Unknown" s = (s, false)) ∧
    (∀ (s : MonitoringState) (te t0 : Int),
      (runResetChecks (checkSystemReset te "Solar Utility Bat" s).1
        [(t0, "Utility Solar Bat"),
         (t0 + 600000, "Utility Solar Bat"),
         (t0 + 1200000, "Utility Solar Bat")]).2 = [true, false, false]) := by
  constructor
  · intro now s
    exact checkSystemReset_unknown now s
  · intro s te t0
    have he := checkSystemReset_expected te s
    rw [show "Solar Utility Bat" = EXPECTED_OUTPUT_PRIORITY from rfl, he]
    simp only [runResetChecks]
    rw [checkSystemReset_deviant_fresh t0 "Utility Solar Bat" _
      (by decide) (by decide) (by simp)]
    rw [checkSystemReset_deviant_hold (t0 + 600000) t0 "Utility Solar Bat" _
      (by decide) (by decide) (by simp) (by simp) (by omega)]
    rw [checkSystemReset_deviant_hold (t0 + 1200000) t0 "Utility Solar Bat" _
      (by decide) (by decide) (by simp) (by simp) (by omega)]

/-! ## Behaviour of the load-shedding monitor on single checks -/

theorem checkLoadShedding_above (cfg : Config) (now : Int) (v : ℚ)
    (s : MonitoringState) (h : v > cfg.loadSheddingVoltageThreshold) :
    checkLoadShedding cfg now v s =
      ({ s with isLoadShedding := false
                lastLoadSheddingAlertTime := none }, false) := by
  have hnb : ¬(v < cfg.loadSheddingVoltageThreshold) := not_lt.mpr h.le
  simp [checkLoadShedding, isVoltageBelow, hnb, h]

theorem checkLoadShedding_at_threshold (cfg : Config) (now : Int) (v : ℚ)
    (s : MonitoringState) (h : v = cfg.loadSheddingVoltageThreshold) :
    checkLoadShedding cfg now v s = (s, false) := by
  subst h
  simp [checkLoadShedding, isVoltageBelow]

theorem checkLoadShedding_shed_fresh (cfg : Config) (now : Int) (v : ℚ)
    (s : MonitoringState) (h1 : 0 < v)
    (h2 : v < cfg.loadSheddingVoltageThreshold)
    (h3 : s.isLoadShedding = false) :
    checkLoadShedding cfg now v s =
      ({ s with isLoadShedding := true
                lastLoadSheddingAlertTime := some now }, true) := by
  simp [checkLoadShedding, isVoltageBelow, h1, h2, h3]

theorem checkLoadShedding_shed_hold (cfg : Config) (now ta : Int) (v : ℚ)
    (s : MonitoringState) (h1 : 0 < v)
    (h2 : v < cfg.loadSheddingVoltageThreshold)
    (h3 : s.isLoadShedding = true)
    (h4 : s.lastLoadSheddingAlertTime = some ta)
    (h5 : now - ta < 5 * 60 * 60 * 1000) :
    checkLoadShedding cfg now v s = (s, false) := by
  have h6 : ¬(now - ta ≥ 5 * 60 * 60 * 1000) := by omega
  simp [checkLoadShedding, isVoltageBelow, reminderDue, h1, h2, h3, h4, h6]
  omega

theorem checkLoadShedding_shed_due (cfg : Config) (now ta : Int) (v : ℚ)
    (s : MonitoringState) (h1 : 0 < v)
    (h2 : v < cfg.loadSheddingVoltageThreshold)
    (h4 : s.lastLoadSheddingAlertTime = some ta)
    (h5 : now - ta ≥ 5 * 60 * 60 * 1000) :
    checkLoadShedding cfg now v s =
      ({ s with isLoadShedding := true
                lastLoadSheddingAlertTime := some now }, true) := by
  simp [checkLoadShedding, isVoltageBelow, reminderDue, h1, h2, h4, h5]
  intro
  omega

/-- Claim C9: with the default 180 V threshold, the shedding condition on
the voltage sequence [230, 230, 0, 0, 170, 170] is false at indices 0-3
(zero voltage is "no reading", not shedding) and true at indices 4-5, and
over a 5-minute-spaced run of checks from any prior state the alert fires
exactly at index 4. -/
theorem C9_zero_voltage_no_reading :
    (([230, 230, 0, 0, 170, 170] : List ℚ).map
        (fun v => isVoltageBelow defaultConfig v)
      = [false, false, false, false, true, true]) ∧
    (∀ (s : MonitoringState) (t0 : Int),
      (runVoltageChecks defaultConfig s
        [(t0, 230), (t0 + 300000, 230), (t0 + 600000, 0), (t0 + 900000, 0),
         (t0 + 1200000, 170), (t0 + 1500000, 170)]).2
        = [false, false, false, false, true, false]) := by
  constructor
  · simp only [List.map_cons, List.map_nil]
    norm_num [isVoltageBelow, defaultConfig]
  · intro s t0
    have h230 : (230 : ℚ) > defaultConfig.loadSheddingVoltageThreshold := by
      norm_num [defaultConfig]
    simp only [runVoltageChecks]
    rw [if_pos (show (230:ℚ) > 0 by norm_num),
        checkLoadShedding_above _ _ _ _ h230]
    rw [if_pos (show (230:ℚ) > 0 by norm_num),
        checkLoadShedding_above _ _ _ _ h230]
    rw [if_neg (show ¬((0:ℚ) > 0) by norm_num)]
    rw [if_neg (show ¬((0:ℚ) > 0) by norm_num)]
    rw [if_pos (show (170:ℚ) > 0 by norm_num),
        checkLoadShedding_shed_fresh _ _ _ _ (by norm_num)
          (by norm_num [defaultConfig]) (by simp)]
    rw [if_pos (show (170:ℚ) > 0 by norm_num),
        checkLoadShedding_shed_hold _ _ (t0 + 1200000) _ _ (by norm_num)
          (by norm_num [defaultConfig]) (by simp) (by simp) (by omega)]

/-- Claim C2 fails on the code: after an active load-shedding episode, a
normal reading exactly at the 180 V threshold sends no alert but leaves
`isLoadShedding` and `lastLoadSheddingAlertTime` untouched instead of
resetting them, because the clear branch requires a voltage strictly
above the threshold. -/
theorem C2_counterexample :
    isVoltageBelow defaultConfig 180 = false ∧
    (checkLoadShedding defaultConfig 1000 180
      { initialState 0 with isLoadShedding := true
                            lastLoadSheddingAlertTime := some 0 }
      = ({ initialState 0 with isLoadShedding := true
                               lastLoadSheddingAlertTime := some 0 },
         false)) := by
  constructor
  · norm_num [isVoltageBelow, defaultConfig]
  · exact checkLoadShedding_at_threshold _ _ _ _ (by norm_num [defaultConfig])

/-- Claim C2 amended: on the very next check against a normal reading no
alert is sent and the monitor state is cleared — for the reset monitor at
any expected-priority reading, for the undervoltage monitor at any
reading strictly above the threshold (at a reading exactly equal to the
threshold no alert is sent but the state is left unchanged), for the
export monitor at any enabled reading, and for the staleness monitor on
any successful data update while offline. -/
theorem C2_amended_edge_clear :
    (∀ (now : Int) (s : MonitoringState),
      (checkSystemReset now EXPECTED_OUTPUT_PRIORITY s).2 = false ∧
      (checkSystemReset now EXPECTED_OUTPUT_PRIORITY s).1.lastResetAlertTime
        = none ∧
      (checkSystemReset now EXPECTED_OUTPUT_PRIORITY s).1.systemResetDetected
        = false) ∧
    (∀ (cfg : Config) (now : Int) (v : ℚ) (s : MonitoringState),
      v > cfg.loadSheddingVoltageThreshold →
      (checkLoadShedding cfg now v s).2 = false ∧
      (checkLoadShedding cfg now v s).1.lastLoadSheddingAlertTime = none ∧
      (checkLoadShedding cfg now v s).1.isLoadShedding = false) ∧
    (∀ (cfg : Config) (now : Int) (v : ℚ) (s : MonitoringState),
      v = cfg.loadSheddingVoltageThreshold →
      checkLoadShedding cfg now v s = (s, false)) ∧
    (∀ (cfg : Config) (now : Int) (s : MonitoringState),
      (checkGridFeed cfg now true s).2.2 = false ∧
      (checkGridFeed cfg now true s).1.lastGridFeedCheck = none) ∧
    (∀ (now : Int) (s : MonitoringState),
      s.systemOnline = false →
      (updateDataTimestamp now s).systemOnline = true ∧
      (updateDataTimestamp now s).lastSystemOfflineAlertTime = none) := by
  refine ⟨?_, ?_, ?_, ?_, ?_⟩
  · intro now s
    rw [checkSystemReset_expected]
    exact ⟨rfl, rfl, rfl⟩
  · intro cfg now v s h
    rw [checkLoadShedding_above cfg now v s h]
    exact ⟨rfl, rfl, rfl⟩
  · intro cfg now v s h
    exact checkLoadShedding_at_threshold cfg now v s h
  · intro cfg now s
    simp [checkGridFeed]
  · intro now s h
    simp [updateDataTimestamp, h]

/-- Witness instantiating every hypothesis of the amended C2 theorem at
concrete inputs. -/
theorem C2_amended_witness :
    ((checkLoadShedding defaultConfig 7 200 (initialState 0)).2 = false ∧
      (checkLoadShedding defaultConfig 7 200
        (initialState 0)).1.lastLoadSheddingAlertTime = none) ∧
    checkLoadShedding defaultConfig 7 180 (initialState 0)
      = (initialState 0, false) ∧
    (updateDataTimestamp 9 { initialState 0 with systemOnline := false
      }).systemOnline = true := by
  refine ⟨?_, ?_, ?_⟩
  · have h := C2_amended_edge_clear.2.1 defaultConfig 7 200 (initialState 0)
      (by norm_num [defaultConfig])
    exact ⟨h.1, h.2.1⟩
  · exact C2_amended_edge_clear.2.2.1 defaultConfig 7 180 (initialState 0)
      (by norm_num [defaultConfig])
  · exact (C2_amended_edge_clear.2.2.2.2 9
      { initialState 0 with systemOnline := false } rfl).1

/-! ## Debounce behaviour over traces of checks -/

theorem runResetChecks_hold (p : String) (t0 : Int)
    (h1 : p ≠ "Unknown") (h2 : p ≠ EXPECTED_OUTPUT_PRIORITY) :
    ∀ (ts : List Int) (s : MonitoringState),
      s.systemResetDetected = true →
      s.lastResetAlertTime = some t0 →
      (∀ t ∈ ts, t - t0 < 60 * 60 * 1000) →
      (runResetChecks s (ts.map (fun t => (t, p)))).2
        = List.replicate ts.length false := by
  intro ts
  induction ts with
  | nil => intro s _ _ _; simp [runResetChecks]
  | cons t rest ih =>
    intro s h3 h4 h5
    simp only [List.map_cons, runResetChecks, List.length_cons,
      List.replicate_succ]
    rw [checkSystemReset_deviant_hold t t0 p s h1 h2 h3 h4
      (h5 t (by simp))]
    simp only [List.cons.injEq, true_and]
    exact ih _ h3 h4 (fun u hu => h5 u (by simp [hu]))

theorem runResetChecks_every (p : String)
    (h1 : p ≠ "Unknown") (h2 : p ≠ EXPECTED_OUTPUT_PRIORITY) :
    ∀ (ts : List Int) (tprev : Int) (s : MonitoringState),
      s.lastResetAlertTime = some tprev →
      gapsAtLeast (60 * 60 * 1000) (tprev :: ts) →
      (runResetChecks s (ts.map (fun t => (t, p)))).2
        = List.replicate ts.length true := by
  intro ts
  induction ts with
  | nil => intro tprev s _ _; simp [runResetChecks]
  | cons t rest ih =>
    intro tprev s h4 hg
    obtain ⟨hgap, hg2⟩ := hg
    simp only [List.map_cons, runResetChecks, List.length_cons,
      List.replicate_succ]
    rw [checkSystemReset_deviant_due t tprev p s h1 h2 h4 (by omega)]
    simp only [List.cons.injEq, true_and]
    exact ih t _ rfl hg2

theorem runVoltageChecks_hold (cfg : Config) (v : ℚ) (t0 : Int)
    (h1 : 0 < v) (h2 : v < cfg.loadSheddingVoltageThreshold) :
    ∀ (ts : List Int) (s : MonitoringState),
      s.isLoadShedding = true →
      s.lastLoadSheddingAlertTime = some t0 →
      (∀ t ∈ ts, t - t0 < 5 * 60 * 60 * 1000) →
      (runVoltageChecks cfg s (ts.map (fun t => (t, v)))).2
        = List.replicate ts.length false := by
  intro ts
  induction ts with
  | nil => intro s _ _ _; simp [runVoltageChecks]
  | cons t rest ih =>
    intro s h3 h4 h5
    simp only [List.map_cons, runVoltageChecks, List.length_cons,
      List.replicate_succ]
    rw [if_pos h1, checkLoadShedding_shed_hold cfg t t0 v s h1 h2 h3 h4
      (h5 t (by simp))]
    simp only [List.cons.injEq, true_and]
    exact ih s h3 h4 (fun u hu => h5 u (by simp [hu]))

theorem runVoltageChecks_every (cfg : Config) (v : ℚ)
    (h1 : 0 < v) (h2 : v < cfg.loadSheddingVoltageThreshold) :
    ∀ (ts : List Int) (tprev : Int) (s : MonitoringState),
      s.lastLoadSheddingAlertTime = some tprev →
      gapsAtLeast (5 * 60 * 60 * 1000) (tprev :: ts) →
      (runVoltageChecks cfg s (ts.map (fun t => (t, v)))).2
        = List.replicate ts.length true := by
  intro ts
  induction ts with
  | nil => intro tprev s _ _; simp [runVoltageChecks]
  | cons t rest ih =>
    intro tprev s h4 hg
    obtain ⟨hgap, hg2⟩ := hg
    simp only [List.map_cons, runVoltageChecks, List.length_cons,
      List.replicate_succ]
    rw [if_pos h1, checkLoadShedding_shed_due cfg t tprev v s h1 h2 h4
      (by omega)]
    simp only [List.cons.injEq, true_and]
    exact ih t _ rfl hg2

/-- Claim C1 fails on the code: starting from the initial state (export
previously believed enabled), two consecutive checks that both see the
export-disabled condition, spaced 10 minutes apart (far below the 1-hour
reminder cadence), both send an alert, because the edge detector compares
against a grid-feed status that lags one check behind. -/
theorem C1_counterexample :
    (checkGridFeed defaultConfig 0 false (initialState 0)).2.2 = true ∧
    (checkGridFeed defaultConfig 600000 false
      (checkGridFeed defaultConfig 0 false (initialState 0)).1).2.2
      = true := by
  constructor
  · simp [checkGridFeed, initialState]
  · simp [checkGridFeed, initialState]

/-- Claim C1 amended: the stated debounce property holds for the reset and
undervoltage monitors — a condition continuously true across a first
check and any further checks within one reminder cadence of it alerts only
on the first check, and checks with consecutive gaps at or beyond the
cadence alert every time.  (The export-disabled monitor instead alerts on
the first two checks of a disabled run, as its edge detection uses a
one-check-lagged status, and the staleness monitor sends a single
threshold-crossing alert with no cadence reminders.) -/
theorem C1_amended_debounce :
    (∀ (p : String) (t0 : Int) (rest : List Int) (s : MonitoringState),
      p ≠ "Unknown" → p ≠ EXPECTED_OUTPUT_PRIORITY →
      s.systemResetDetected = false →
      (∀ t ∈ rest, t - t0 < 60 * 60 * 1000) →
      (runResetChecks s ((t0 :: rest).map (fun t => (t, p)))).2
        = true :: List.replicate rest.length false) ∧
    (∀ (p : String) (t0 : Int) (rest : List Int) (s : MonitoringState),
      p ≠ "Unknown" → p ≠ EXPECTED_OUTPUT_PRIORITY →
      s.systemResetDetected = false →
      gapsAtLeast (60 * 60 * 1000) (t0 :: rest) →
      (runResetChecks s ((t0 :: rest).map (fun t => (t, p)))).2
        = List.replicate (rest.length + 1) true) ∧
    (∀ (cfg : Config) (v : ℚ) (t0 : Int) (rest : List Int)
        (s : MonitoringState),
      0 < v → v < cfg.loadSheddingVoltageThreshold →
      s.isLoadShedding = false →
      (∀ t ∈ rest, t - t0 < 5 * 60 * 60 * 1000) →
      (runVoltageChecks cfg s ((t0 :: rest).map (fun t => (t, v)))).2
        = true :: List.replicate rest.length false) ∧
    (∀ (cfg : Config) (v : ℚ) (t0 : Int) (rest : List Int)
        (s : MonitoringState),
      0 < v → v < cfg.loadSheddingVoltageThreshold →
      s.isLoadShedding = false →
      gapsAtLeast (5 * 60 * 60 * 1000) (t0 :: rest) →
      (runVoltageChecks cfg s ((t0 :: rest).map (fun t => (t, v)))).2
        = List.replicate (rest.length + 1) true) := by
  refine ⟨?_, ?_, ?_, ?_⟩
  · intro p t0 rest s h1 h2 h3 h5
    simp only [List.map_cons, runResetChecks]
    rw [checkSystemReset_deviant_fresh t0 p s h1 h2 h3]
    simp only [List.cons.injEq, true_and]
    exact runResetChecks_hold p t0 h1 h2 rest _ rfl rfl h5
  · intro p t0 rest s h1 h2 h3 hg
    simp only [List.map_cons, runResetChecks, List.replicate_succ]
    rw [checkSystemReset_deviant_fresh t0 p s h1 h2 h3]
    simp only [List.cons.injEq, true_and]
    exact runResetChecks_every p h1 h2 rest t0 _ rfl hg
  · intro cfg v t0 rest s h1 h2 h3 h5
    simp only [List.map_cons, runVoltageChecks]
    rw [if_pos h1, checkLoadShedding_shed_fresh cfg t0 v s h1 h2 h3]
    simp only [List.cons.injEq, true_and]
    exact runVoltageChecks_hold cfg v t0 h1 h2 rest _ rfl rfl h5
  · intro cfg v t0 rest s h1 h2 h3 hg
    simp only [List.map_cons, runVoltageChecks, List.replicate_succ]
    rw [if_pos h1, checkLoadShedding_shed_fresh cfg t0 v s h1 h2 h3]
    simp only [List.cons.injEq, true_and]
    exact runVoltageChecks_every cfg v h1 h2 rest t0 _ rfl hg

/-- Witness instantiating the amended C1 debounce theorem on concrete
runs: two deviant reset checks one minute apart alert once; two deviant
reset checks exactly one hour apart alert twice; likewise for 170 V
undervoltage checks against the 5-hour cadence. -/
theorem C1_amended_witness :
    (runResetChecks (initialState 0)
      [(0, "Utility Solar Bat"), (60000, "Utility Solar Bat")]).2
      = [true, false] ∧
    (runResetChecks (initialState 0)
      [(0, "Utility Solar Bat"), (3600000, "Utility Solar Bat")]).2
      = [true, true] ∧
    (runVoltageChecks defaultConfig (initialState 0)
      [(0, 170), (60000, 170)]).2 = [true, false] ∧
    (runVoltageChecks defaultConfig (initialState 0)
      [(0, 170), (18000000, 170)]).2 = [true, true] := by
  refine ⟨?_, ?_, ?_, ?_⟩
  · have h := C1_amended_debounce.1 "Utility Solar Bat" 0 [60000]
      (initialState 0) (by decide) (by decide) rfl
      (by intro t ht; simp at ht; omega)
    simpa using h
  · have h := C1_amended_debounce.2.1 "Utility Solar Bat" 0 [3600000]
      (initialState 0) (by decide) (by decide) rfl
      (by exact ⟨by omega, trivial⟩)
    simpa using h
  · have h := C1_amended_debounce.2.2.1 defaultConfig 170 0 [60000]
      (initialState 0) (by norm_num) (by norm_num [defaultConfig]) rfl
      (by intro t ht; simp at ht; omega)
    simpa using h
  · have h := C1_amended_debounce.2.2.2 defaultConfig 170 0 [18000000]
      (initialState 0) (by norm_num) (by norm_num [defaultConfig]) rfl
      (by exact ⟨by omega, trivial⟩)
    simpa using h

/-! ## The staleness monitor -/

theorem updateDataTimestamp_systemOnline (now : Int) (s : MonitoringState) :
    (updateDataTimestamp now s).systemOnline = true := by
  simp only [updateDataTimestamp]
  split_ifs with h
  · rfl
  · simpa using h

theorem updateDataTimestamp_lastDataTimestamp (now : Int)
    (s : MonitoringState) :
    (updateDataTimestamp now s).lastDataTimestamp = now := by
  simp only [updateDataTimestamp]
  split_ifs <;> rfl

theorem updateDataTimestamp_alertTime (now : Int) (s : MonitoringState)
    (h : s.systemOnline = false) :
    (updateDataTimestamp now s).lastSystemOfflineAlertTime = none := by
  simp [updateDataTimestamp, h]

theorem checkSystemReset_offline_fields (now : Int) (p : String)
    (s : MonitoringState) :
    (checkSystemReset now p s).1.systemOnline = s.systemOnline ∧
    (checkSystemReset now p s).1.lastSystemOfflineAlertTime
      = s.lastSystemOfflineAlertTime ∧
    (checkSystemReset now p s).1.lastDataTimestamp = s.lastDataTimestamp := by
  simp only [checkSystemReset]
  split_ifs <;> exact ⟨rfl, rfl, rfl⟩

theorem checkLoadShedding_offline_fields (cfg : Config) (now : Int) (v : ℚ)
    (s : MonitoringState) :
    (checkLoadShedding cfg now v s).1.systemOnline = s.systemOnline ∧
    (checkLoadShedding cfg now v s).1.lastSystemOfflineAlertTime
      = s.lastSystemOfflineAlertTime ∧
    (checkLoadShedding cfg now v s).1.lastDataTimestamp
      = s.lastDataTimestamp := by
  simp only [checkLoadShedding]
  split_ifs <;> exact ⟨rfl, rfl, rfl⟩

theorem checkGridFeed_offline_fields (cfg : Config) (now : Int) (b : Bool)
    (s : MonitoringState) :
    (checkGridFeed cfg now b s).1.systemOnline = s.systemOnline ∧
    (checkGridFeed cfg now b s).1.lastSystemOfflineAlertTime
      = s.lastSystemOfflineAlertTime ∧
    (checkGridFeed cfg now b s).1.lastDataTimestamp
      = s.lastDataTimestamp := by
  simp only [checkGridFeed]
  split_ifs <;> exact ⟨rfl, rfl, rfl⟩

theorem checkSystemReset_keeps_systemOnline (now : Int) (p : String)
    (s : MonitoringState) :
    (checkSystemReset now p s).1.systemOnline = s.systemOnline :=
  (checkSystemReset_offline_fields now p s).1

theorem checkSystemReset_keeps_alertTime (now : Int) (p : String)
    (s : MonitoringState) :
    (checkSystemReset now p s).1.lastSystemOfflineAlertTime
      = s.lastSystemOfflineAlertTime :=
  (checkSystemReset_offline_fields now p s).2.1

theorem checkSystemReset_keeps_dataTimestamp (now : Int) (p : String)
    (s : MonitoringState) :
    (checkSystemReset now p s).1.lastDataTimestamp = s.lastDataTimestamp :=
  (checkSystemReset_offline_fields now p s).2.2

theorem checkLoadShedding_keeps_systemOnline (cfg : Config) (now : Int)
    (v : ℚ) (s : MonitoringState) :
    (checkLoadShedding cfg now v s).1.systemOnline = s.systemOnline :=
  (checkLoadShedding_offline_fields cfg now v s).1

theorem checkLoadShedding_keeps_alertTime (cfg : Config) (now : Int)
    (v : ℚ) (s : MonitoringState) :
    (checkLoadShedding cfg now v s).1.lastSystemOfflineAlertTime
      = s.lastSystemOfflineAlertTime :=
  (checkLoadShedding_offline_fields cfg now v s).2.1

theorem checkLoadShedding_keeps_dataTimestamp (cfg : Config) (now : Int)
    (v : ℚ) (s : MonitoringState) :
    (checkLoadShedding cfg now v s).1.lastDataTimestamp
      = s.lastDataTimestamp :=
  (checkLoadShedding_offline_fields cfg now v s).2.2

theorem checkGridFeed_keeps_systemOnline (cfg : Config) (now : Int)
    (b : Bool) (s : MonitoringState) :
    (checkGridFeed cfg now b s).1.systemOnline = s.systemOnline :=
  (checkGridFeed_offline_fields cfg now b s).1

theorem checkGridFeed_keeps_alertTime (cfg : Config) (now : Int)
    (b : Bool) (s : MonitoringState) :
    (checkGridFeed cfg now b s).1.lastSystemOfflineAlertTime
      = s.lastSystemOfflineAlertTime :=
  (checkGridFeed_offline_fields cfg now b s).2.1

theorem checkGridFeed_keeps_dataTimestamp (cfg : Config) (now : Int)
    (b : Bool) (s : MonitoringState) :
    (checkGridFeed cfg now b s).1.lastDataTimestamp = s.lastDataTimestamp :=
  (checkGridFeed_offline_fields cfg now b s).2.2

theorem runAllChecks_success_fields (cfg : Config) (now : Int)
    (currentHour : Nat) (sd : SystemData) (dd : Option DeviceData)
    (s : MonitoringState) (store : Option Bool)
    (hsucc : sd.success = true)
    (hthr : 0 ≤ cfg.systemOfflineThresholdMinutes) :
    (runAllChecks cfg now currentHour sd dd s store).alerts.offline
        = false ∧
    (runAllChecks cfg now currentHour sd dd s store).state.systemOnline
        = true ∧
    (runAllChecks cfg now currentHour sd dd s
        store).state.lastSystemOfflineAlertTime
      = (updateDataTimestamp now s).lastSystemOfflineAlertTime := by
  have hsafe : ¬(cfg.systemOfflineThresholdMinutes * 60 * 1000 < (0 : Int)) := by
    omega
  by_cases hp : sd.outputPriority ≠ "Unknown" <;>
  by_cases hv : sd.gridVoltage > 0 <;>
  simp [runAllChecks, hsucc, hp, hv, checkSystemOffline,
    checkSystemReset_keeps_systemOnline, checkSystemReset_keeps_alertTime,
    checkSystemReset_keeps_dataTimestamp,
    checkLoadShedding_keeps_systemOnline, checkLoadShedding_keeps_alertTime,
    checkLoadShedding_keeps_dataTimestamp,
    checkGridFeed_keeps_systemOnline, checkGridFeed_keeps_alertTime,
    checkGridFeed_keeps_dataTimestamp,
    updateDataTimestamp_systemOnline, updateDataTimestamp_lastDataTimestamp,
    hsafe]

theorem checkSystemOffline_fresh (cfg : Config) (now : Int)
    (s : MonitoringState) (h : s.lastDataTimestamp = now)
    (hthr : 0 ≤ cfg.systemOfflineThresholdMinutes) :
    checkSystemOffline cfg now s = (s, false) := by
  unfold checkSystemOffline
  rw [if_neg]
  intro hcon
  rw [h] at hcon
  omega

/-- Claim C3 fails on the code: after a successful poll, a single failed
fetch on the next 5-minute check produces no alert at all — the offline
check only fires once more than the 10-minute threshold has elapsed since
the last successful data update, a rolling time window. -/
theorem C3_counterexample :
    (runAllChecks defaultConfig 300000 12
      { outputPriority := "Unknown", gridVoltage := 0, success := false }
      none
      (runAllChecks defaultConfig 0 12
        { outputPriority := "Solar Utility Bat", gridVoltage := 230,
          success := true }
        none (initialState 0) (some true)).state
      (some true)).alerts
    = { reset := false, loadShedding := false, gridFeed := false,
        offline := false } := by
  decide

/-- Claim C3 amended: the staleness check alerts exactly when more than
`systemOfflineThresholdMinutes` (default 10 minutes) have elapsed since
the last successful data update while the system was still marked online;
once it has alerted, no further offline alert is sent at any later time
until the system recovers.  There is no per-poll immediate alert and no
consecutive-failure counter. -/
theorem C3_amended_offline_window :
    (∀ (cfg : Config) (now : Int) (s : MonitoringState),
      (checkSystemOffline cfg now s).2 = true ↔
        (now - s.lastDataTimestamp
            > cfg.systemOfflineThresholdMinutes * 60 * 1000 ∧
          s.systemOnline = true)) ∧
    (∀ (cfg : Config) (now later : Int) (s : MonitoringState),
      (checkSystemOffline cfg now s).2 = true →
      (checkSystemOffline cfg later (checkSystemOffline cfg now s).1).2
        = false) := by
  have hiff : ∀ (cfg : Config) (now : Int) (s : MonitoringState),
      (checkSystemOffline cfg now s).2 = true ↔
        (now - s.lastDataTimestamp
            > cfg.systemOfflineThresholdMinutes * 60 * 1000 ∧
          s.systemOnline = true) := by
    intro cfg now s
    simp only [checkSystemOffline]
    split_ifs with h
    · simpa using h
    · simpa using h
  refine ⟨hiff, ?_⟩
  intro cfg now later s halert
  have hcond := (hiff cfg now s).mp halert
  have hstate : (checkSystemOffline cfg now s).1.systemOnline = false := by
    simp only [checkSystemOffline]
    rw [if_pos hcond]
  cases hres : (checkSystemOffline cfg later
      (checkSystemOffline cfg now s).1).2 with
  | false => rfl
  | true =>
    have h2 := (hiff cfg later (checkSystemOffline cfg now s).1).mp hres
    rw [hstate] at h2
    exact absurd h2.2 (by simp)

/-- Witness instantiating the amended C3 theorem: from a fresh service
state with last data at time 0, a check at 11 minutes alerts, and a
further check at any later time (here one hour) does not. -/
theorem C3_amended_witness :
    (checkSystemOffline defaultConfig 660000 (initialState 0)).2 = true ∧
    (checkSystemOffline defaultConfig 3600000
      (checkSystemOffline defaultConfig 660000 (initialState 0)).1).2
      = false := by
  have h1 : (checkSystemOffline defaultConfig 660000 (initialState 0)).2
      = true := by
    refine (C3_amended_offline_window.1 defaultConfig 660000
      (initialState 0)).mpr ⟨?_, rfl⟩
    norm_num [initialState, defaultConfig]
  exact ⟨h1, C3_amended_offline_window.2 defaultConfig 660000 3600000
    (initialState 0) h1⟩

/-- Claim C4 fails on the code: on the first successful poll after the
system was marked offline, no alert of any kind is dispatched — the
monitor silently flips back online and clears its alert timestamp; there
is no "recovered" notification (and no failure counter exists in the
monitoring state). -/
theorem C4_counterexample :
    (runAllChecks defaultConfig 1200000 12
      { outputPriority := "Solar Utility Bat", gridVoltage := 230,
        success := true }
      none
      { initialState 0 with systemOnline := false,
                            lastSystemOfflineAlertTime := some 600000 }
      (some true)).alerts
      = { reset := false, loadShedding := false, gridFeed := false,
          offline := false } ∧
    (runAllChecks defaultConfig 1200000 12
      { outputPriority := "Solar Utility Bat", gridVoltage := 230,
        success := true }
      none
      { initialState 0 with systemOnline := false,
                            lastSystemOfflineAlertTime := some 600000 }
      (some true)).state.systemOnline = true ∧
    (runAllChecks defaultConfig 1200000 12
      { outputPriority := "Solar Utility Bat", gridVoltage := 230,
        success := true }
      none
      { initialState 0 with systemOnline := false,
                            lastSystemOfflineAlertTime := some 600000 }
      (some true)).state.lastSystemOfflineAlertTime = none := by
  decide

/-- Claim C4 amended: on any successful poll the pass sends no offline
alert and ends with the system marked online; if the system had been
marked offline, the last-offline-alert timestamp is silently cleared to
null.  No "recovered" alert is sent and no failure counter exists. -/
theorem C4_amended_silent_recovery :
    ∀ (cfg : Config) (now : Int) (currentHour : Nat) (sd : SystemData)
      (dd : Option DeviceData) (s : MonitoringState) (store : Option Bool),
      sd.success = true → 0 ≤ cfg.systemOfflineThresholdMinutes →
      (runAllChecks cfg now currentHour sd dd s store).alerts.offline
          = false ∧
      (runAllChecks cfg now currentHour sd dd s store).state.systemOnline
          = true ∧
      (s.systemOnline = false →
        (runAllChecks cfg now currentHour sd dd s
            store).state.lastSystemOfflineAlertTime = none) := by
  intro cfg now currentHour sd dd s store hsucc hthr
  obtain ⟨h1, h2, h3⟩ := runAllChecks_success_fields cfg now currentHour
    sd dd s store hsucc hthr
  refine ⟨h1, h2, ?_⟩
  intro hwasoff
  rw [h3, updateDataTimestamp_alertTime now s hwasoff]

/-- Witness instantiating the amended C4 theorem at a concrete recovery
pass: a successful poll while the state is marked offline ends online,
with no offline alert and the alert timestamp cleared. -/
theorem C4_amended_witness :
    (runAllChecks defaultConfig 50 3
      { outputPriority := "Unknown", gridVoltage := 0, success := true }
      none
      { initialState 0 with systemOnline := false }
      none).alerts.offline = false ∧
    (runAllChecks defaultConfig 50 3
      { outputPriority := "Unknown", gridVoltage := 0, success := true }
      none
      { initialState 0 with systemOnline := false }
      none).state.lastSystemOfflineAlertTime = none := by
  have h := C4_amended_silent_recovery defaultConfig 50 3
    { outputPriority := "Unknown", gridVoltage := 0, success := true }
    none { initialState 0 with systemOnline := false } none rfl
    (by norm_num [defaultConfig])
  exact ⟨h.1, h.2.2 rfl⟩

/-! ## Rounding facts for the daily summary -/

theorem jsRound_le (q : ℚ) : (jsRound q : ℚ) ≤ q + 1/2 := by
  rw [jsRound]
  exact Int.floor_le (q + 1/2)

theorem lt_jsRound_add_one (q : ℚ) : q + 1/2 < (jsRound q : ℚ) + 1 := by
  rw [jsRound]
  exact Int.lt_floor_add_one (q + 1/2)

theorem jsRound_intCast (k : Int) : jsRound (k : ℚ) = k := by
  rw [jsRound, Int.floor_eq_iff]
  constructor
  · linarith
  · have hcast : ((k : ℚ) + 1/2) < (k : ℚ) + 1 := by norm_num
    linarith

/-- Rounding a value that is already a whole number of hundredths leaves
it unchanged; in particular the difference of two `round2` outputs is a
fixed point of `round2`. -/
theorem round2_round2_sub (p l : ℚ) :
    round2 (round2 p - round2 l) = round2 p - round2 l := by
  rw [round2, round2, round2]
  have h1 : (jsRound (p * 100) : ℚ) / 100 - (jsRound (l * 100) : ℚ) / 100
      = ((jsRound (p * 100) - jsRound (l * 100) : Int) : ℚ) / 100 := by
    push_cast
    ring
  rw [h1]
  have h2 : ((jsRound (p * 100) - jsRound (l * 100) : Int) : ℚ) / 100 * 100
      = ((jsRound (p * 100) - jsRound (l * 100) : Int) : ℚ) := by
    field_simp
  rw [h2, jsRound_intCast]

/-- Rounding the difference once differs from the difference of the
rounded values by at most one hundredth. -/
theorem round2_sub_close (p l : ℚ) :
    |round2 (p - l) - (round2 p - round2 l)| ≤ 1/100 := by
  have ha1 := jsRound_le ((p - l) * 100)
  have ha2 := lt_jsRound_add_one ((p - l) * 100)
  have hb1 := jsRound_le (p * 100)
  have hb2 := lt_jsRound_add_one (p * 100)
  have hc1 := jsRound_le (l * 100)
  have hc2 := lt_jsRound_add_one (l * 100)
  set a := jsRound ((p - l) * 100) with hadef
  set b := jsRound (p * 100) with hbdef
  set c := jsRound (l * 100) with hcdef
  have hup : (2 * (a - b + c) : Int) < 3 := by
    have : ((2 * (a - b + c) : Int) : ℚ) < 3 := by
      push_cast
      linarith
    exact_mod_cast this
  have hlo : (-3 : Int) < 2 * (a - b + c) := by
    have : (-3 : ℚ) < ((2 * (a - b + c) : Int) : ℚ) := by
      push_cast
      linarith
    exact_mod_cast this
  have hbound : (-1 : Int) ≤ a - b + c ∧ (a - b + c : Int) ≤ 1 := by omega
  have hval : round2 (p - l) - (round2 p - round2 l)
      = ((a - b + c : Int) : ℚ) / 100 := by
    rw [round2, round2, round2]
    push_cast
    ring
  rw [hval, abs_le]
  constructor
  · have : ((-1 : Int) : ℚ) ≤ ((a - b + c : Int) : ℚ) := by
      exact_mod_cast hbound.1
    push_cast at this ⊢
    linarith
  · have : ((a - b + c : Int) : ℚ) ≤ ((1 : Int) : ℚ) := by
      exact_mod_cast hbound.2
    push_cast at this ⊢
    linarith

/-- Evaluation helper: `round2 q` equals `k/100` once `k` brackets
`q * 100 + 1/2`. -/
theorem round2_eval (q : ℚ) (k : Int) (h1 : (k : ℚ) ≤ q * 100 + 1/2)
    (h2 : q * 100 + 1/2 < (k : ℚ) + 1) : round2 q = (k : ℚ) / 100 := by
  have h : ⌊q * 100 + 1/2⌋ = k := by
    rw [Int.floor_eq_iff]
    exact ⟨h1, by linarith⟩
  rw [round2, jsRound, h]

/-- The single concrete telemetry sample used to refute claim C5: one
retained row with 168 W of production and 60 W of load. -/
def c5Row : Row :=
  { fieldCount := 22, timestamp := "2025-10-08 00:00", pvPower := 168,
    loadPower := 60, mode := "" }

/-- Claim C5 fails on the code: for a single retained sample with 168 W of
production and 60 W of load, the summary rounds production and
consumption to 0.01 kWh each, yet reports a grid contribution of
0.01 kWh, while `round(productionKwh - consumptionKwh, 2)` is 0 — the
code rounds the difference of the unrounded totals, not of the rounded
fields. -/
theorem C5_counterexample :
    (getDailyStats "2025-10-08" [c5Row]).production_kwh = 1/100 ∧
    (getDailyStats "2025-10-08" [c5Row]).load_kwh = 1/100 ∧
    (getDailyStats "2025-10-08" [c5Row]).grid_contribution_kwh = 1/100 ∧
    round2 ((getDailyStats "2025-10-08" [c5Row]).production_kwh
      - (getDailyStats "2025-10-08" [c5Row]).load_kwh) = 0 ∧
    ((1 : ℚ)/100 ≠ 0) := by
  have hr : retainedRows "2025-10-08" [c5Row] = [c5Row] := by decide
  have hP : totalProductionWh "2025-10-08" [c5Row] = 14 := by
    rw [totalProductionWh, hr]
    norm_num [intervalHours, c5Row]
  have hL : totalLoadWh "2025-10-08" [c5Row] = 5 := by
    rw [totalLoadWh, hr]
    norm_num [intervalHours, c5Row]
  have h1 : (getDailyStats "2025-10-08" [c5Row]).production_kwh = 1/100 := by
    show round2 (totalProductionWh "2025-10-08" [c5Row] / 1000) = 1/100
    rw [hP, round2_eval (14/1000) 1 (by norm_num) (by norm_num)]
    norm_num
  have h2 : (getDailyStats "2025-10-08" [c5Row]).load_kwh = 1/100 := by
    show round2 (totalLoadWh "2025-10-08" [c5Row] / 1000) = 1/100
    rw [hL, round2_eval (5/1000) 1 (by norm_num) (by norm_num)]
    norm_num
  refine ⟨h1, h2, ?_, ?_, by norm_num⟩
  · show round2 ((totalProductionWh "2025-10-08" [c5Row]
        - totalLoadWh "2025-10-08" [c5Row]) / 1000) = 1/100
    rw [hP, hL, round2_eval ((14 - 5)/1000) 1 (by norm_num) (by norm_num)]
    norm_num
  · rw [h1, h2, round2_eval ((1 : ℚ)/100 - 1/100) 0 (by norm_num)
      (by norm_num)]
    norm_num

/-- Claim C5 amended: the summary computes `gridContributionKwh` by
rounding the difference of the unrounded kWh totals; it always lies
within 0.01 of `productionKwh - consumptionKwh` (which, being a
difference of hundredths, is its own two-decimal rounding), but need not
equal it exactly. -/
theorem C5_amended_energy_identity (dateStr : String) (rows : List Row) :
    round2 ((getDailyStats dateStr rows).production_kwh
        - (getDailyStats dateStr rows).load_kwh)
      = (getDailyStats dateStr rows).production_kwh
        - (getDailyStats dateStr rows).load_kwh ∧
    |(getDailyStats dateStr rows).grid_contribution_kwh
        - ((getDailyStats dateStr rows).production_kwh
            - (getDailyStats dateStr rows).load_kwh)| ≤ 1/100 := by
  constructor
  · exact round2_round2_sub (totalProductionWh dateStr rows / 1000)
      (totalLoadWh dateStr rows / 1000)
  · have hdiff : (totalProductionWh dateStr rows - totalLoadWh dateStr rows)
        / 1000
      = totalProductionWh dateStr rows / 1000
        - totalLoadWh dateStr rows / 1000 := by
      ring
    show |round2 ((totalProductionWh dateStr rows
        - totalLoadWh dateStr rows) / 1000)
        - (round2 (totalProductionWh dateStr rows / 1000)
            - round2 (totalLoadWh dateStr rows / 1000))| ≤ 1/100
    rw [hdiff]
    exact round2_sub_close (totalProductionWh dateStr rows / 1000)
      (totalLoadWh dateStr rows / 1000)

/-! ## Sample counting and the expected-sample computation -/

/-- Length of a filtered replicate when the predicate holds of the
repeated element. -/
theorem filter_replicate_length {α : Type} (n : Nat) (p : α → Bool) (a : α)
    (h : p a = true) :
    (List.filter p (List.replicate n a)).length = n := by
  induction n with
  | zero => rfl
  | succ k ih => simp [List.replicate_succ, List.filter_cons, h, ih]

/-- The duplicate row used to refute claim C6. -/
def c6Row : Row :=
  { fieldCount := 22, timestamp := "2025-10-08", pvPower := 0,
    loadPower := 0, mode := "" }

/-- Claim C6 fails on the code: with 289 retained rows for the requested
date (duplicate timestamps are not deduplicated), the missing count is
clamped to 0 and `actual + missing = 289 ≠ 288 = expected`. -/
theorem C6_counterexample :
    actualDataPoints "2025-10-08" (List.replicate 289 c6Row) = 289 ∧
    missingDataPoints "2025-10-08" (List.replicate 289 c6Row) = 0 ∧
    ¬((actualDataPoints "2025-10-08" (List.replicate 289 c6Row) : Int)
      + missingDataPoints "2025-10-08" (List.replicate 289 c6Row)
      = expectedDataPoints) := by
  have hret : retained "2025-10-08" c6Row = true := by decide
  have hact : actualDataPoints "2025-10-08" (List.replicate 289 c6Row)
      = 289 := by
    rw [actualDataPoints, retainedRows]
    exact filter_replicate_length 289 _ _ hret
  have hmiss : missingDataPoints "2025-10-08" (List.replicate 289 c6Row)
      = 0 := by
    rw [missingDataPoints, hact]
    decide
  refine ⟨hact, hmiss, ?_⟩
  rw [hact, hmiss]
  decide

/-- Claim C6 amended: in general `actual + missing = max actual 288`, so
the completeness identity `actual + missing = expected = 288` holds
exactly when at most 288 rows are retained; a series with duplicate
timestamps can exceed that and then the sum exceeds the expected count. -/
theorem C6_amended_completeness (dateStr : String) (rows : List Row) :
    ((actualDataPoints dateStr rows : Int) + missingDataPoints dateStr rows
      = max (actualDataPoints dateStr rows : Int) expectedDataPoints) ∧
    ((actualDataPoints dateStr rows : Int) ≤ expectedDataPoints →
      (actualDataPoints dateStr rows : Int) + missingDataPoints dateStr rows
        = expectedDataPoints) := by
  simp only [missingDataPoints, expectedDataPoints, max_def]
  constructor
  · split_ifs <;> omega
  · intro h
    split_ifs <;> omega

/-- Witness instantiating the amended C6 theorem: an empty series retains
0 ≤ 288 samples and reconciles to exactly 288. -/
theorem C6_amended_witness :
    (actualDataPoints "2025-10-08" [] : Int)
      + missingDataPoints "2025-10-08" [] = expectedDataPoints := by
  exact (C6_amended_completeness "2025-10-08" []).2 (by decide)

/-- Claim C7 fails on the code: `getDailyStats` uses the constant 288
whatever date is requested — querying the in-progress day at 12:00 with
no samples yet reports 288 missing samples, while the claimed scaling
floor(720 / 5) = 144 would report 144; only the frontend `fetchData`
computation scales with the clock. -/
theorem C7_counterexample :
    missingDataPoints "2025-10-08" [] = 288 ∧
    fetchDataExpectedDataPoints "2025-10-08" "2025-10-08" 12 0 = 144 ∧
    ¬(missingDataPoints "2025-10-08" []
      = (fetchDataExpectedDataPoints "2025-10-08" "2025-10-08" 12 0 : Int)) := by
  decide

/-- Claim C7 amended: the frontend aggregator (`fetchData` in
`app/page.tsx`) computes the expected sample count as 288 for any date
other than today and floor(minutesSinceMidnight / 5) for today, but the
service aggregator (`getDailyStats`) uses the constant 288 for every
requested date, today included. -/
theorem C7_amended_expected_count :
    (∀ (dateStr todayStr : String) (h m : Nat), dateStr ≠ todayStr →
      fetchDataExpectedDataPoints dateStr todayStr h m = 288) ∧
    (∀ (dateStr : String) (h m : Nat),
      fetchDataExpectedDataPoints dateStr dateStr h m = (h * 60 + m) / 5) ∧
    (∀ (dateStr : String) (rows : List Row),
      missingDataPoints dateStr rows
        = max 0 (288 - (actualDataPoints dateStr rows : Int))) := by
  refine ⟨?_, ?_, ?_⟩
  · intro dateStr todayStr h m hne
    simp [fetchDataExpectedDataPoints, hne]
  · intro dateStr h m
    simp [fetchDataExpectedDataPoints]
  · intro dateStr rows
    simp [missingDataPoints, expectedDataPoints]

/-- Witness instantiating the amended C7 theorem at concrete dates and
clock readings. -/
theorem C7_amended_witness :
    fetchDataExpectedDataPoints "2025-10-07" "2025-10-08" 12 0 = 288 ∧
    fetchDataExpectedDataPoints "2025-10-08" "2025-10-08" 12 1 = 144 := by
  constructor
  · exact C7_amended_expected_count.1 "2025-10-07" "2025-10-08" 12 0
      (by decide)
  · have h := C7_amended_expected_count.2.1 "2025-10-08" 12 1
    rw [h]

/-! ## Grid-feed belief resolution -/

/-- The resolution rule exactly as claim C10 words it (for refutation):
in the daytime window with real production the belief is the ≥ 50 W
feeding test, otherwise feeding ANY positive amount forces "enabled",
with the persisted belief (default enabled) as the final fallback. -/
def gridFeedBeliefClaim (d : DeviceData) (currentHour : Nat)
    (store : Option Bool) : Bool :=
  if (7 ≤ currentHour ∧ currentHour ≤ 17) ∧ d.pv1Power + d.pv2Power > 500 then
    decide (d.solarFeedPower ≥ 50)
  else if d.solarFeedPower > 0 then true
  else store.getD true

/-- Claim C10 fails on the code: at night with 30 W currently being fed
to the grid and a persisted belief of "disabled", the claim resolves the
belief to enabled ("currently feeding any amount"), but the code requires
at least 50 W and falls back to the persisted belief, resolving to
disabled. -/
theorem C10_counterexample :
    gridFeedBeliefClaim
      { solarFeedPower := 30, pv1Power := 0, pv2Power := 0 } 0 (some false)
      = true ∧
    getGridFeedStatus
      (some { solarFeedPower := 30, pv1Power := 0, pv2Power := 0 }) 0
      (some false) = false := by
  decide

/-- Claim C10 amended: with device data present, daytime (hour 7-17) plus
more than 500 W of PV production resolves the belief to the ≥ 50 W
feeding test, ignoring the persisted flag; otherwise the belief is
enabled when at least 50 W is currently fed (not "any amount"), else it
falls back to the persisted flag, defaulting to enabled; and every
grid-feed check persists the incoming resolved belief to the flag store. -/
theorem C10_amended_feed_resolution :
    (∀ (d : DeviceData) (currentHour : Nat) (store : Option Bool),
      7 ≤ currentHour → currentHour ≤ 17 → d.pv1Power + d.pv2Power > 500 →
      getGridFeedStatus (some d) currentHour store
        = decide (d.solarFeedPower ≥ 50)) ∧
    (∀ (d : DeviceData) (currentHour : Nat) (store : Option Bool),
      ¬(7 ≤ currentHour ∧ currentHour ≤ 17 ∧ d.pv1Power + d.pv2Power > 500) →
      getGridFeedStatus (some d) currentHour store
        = (if d.solarFeedPower ≥ 50 then true else store.getD true)) ∧
    (∀ (currentHour : Nat) (store : Option Bool),
      getGridFeedStatus none currentHour store = store.getD true) ∧
    (∀ (cfg : Config) (now : Int) (b : Bool) (s : MonitoringState),
      (checkGridFeed cfg now b s).2.1 = some b) := by
  refine ⟨?_, ?_, ?_, ?_⟩
  · intro d currentHour store h1 h2 h3
    simp [getGridFeedStatus, h1, h2, h3]
  · intro d currentHour store hno
    have hand : (decide (7 ≤ currentHour) && decide (currentHour ≤ 17)
        && decide (d.pv1Power + d.pv2Power > 500)) = false := by
      rcases Decidable.em (7 ≤ currentHour) with h1 | h1
      · rcases Decidable.em (currentHour ≤ 17) with h2 | h2
        · rcases Decidable.em (d.pv1Power + d.pv2Power > 500) with h3 | h3
          · exact absurd ⟨h1, h2, h3⟩ hno
          · simp [h3]
        · simp [h2]
      · simp [h1]
    simp only [getGridFeedStatus, hand, Bool.false_eq_true, if_false,
      decide_eq_true_eq]
    split_ifs with hf hsg
    · rfl
    · exact hsg.symm
    · cases hsg2 : store.getD true
      · exact absurd hsg2 hsg
      · rfl
  · intro currentHour store
    simp [getGridFeedStatus]
  · intro cfg now b s
    simp [checkGridFeed]

/-- Witness instantiating the amended C10 theorem: a producing midday
reading feeding 100 W resolves to enabled; a night reading feeding 30 W
with persisted "disabled" resolves to disabled; missing device data with
no persisted flag defaults to enabled; and a check with an enabled status
persists `true`. -/
theorem C10_amended_witness :
    getGridFeedStatus
      (some { solarFeedPower := 100, pv1Power := 600, pv2Power := 0 }) 12
      none = true ∧
    getGridFeedStatus
      (some { solarFeedPower := 30, pv1Power := 0, pv2Power := 0 }) 20
      (some false) = false ∧
    getGridFeedStatus none 12 none = true ∧
    (checkGridFeed defaultConfig 0 true (initialState 0)).2.1 = some true := by
  refine ⟨?_, ?_, ?_, ?_⟩
  · rw [C10_amended_feed_resolution.1
      { solarFeedPower := 100, pv1Power := 600, pv2Power := 0 } 12 none
      (by norm_num) (by norm_num) (by norm_num)]
    decide
  · rw [C10_amended_feed_resolution.2.1
      { solarFeedPower := 30, pv1Power := 0, pv2Power := 0 } 20 (some false)
      (by intro hcon; exact absurd hcon.2.1 (by norm_num))]
    norm_num
  · exact C10_amended_feed_resolution.2.2.1 12 none
  · exact C10_amended_feed_resolution.2.2.2 defaultConfig 0 true
      (initialState 0)

end Solar
